import Mathlib

/-
  Verification of the docstore rendering Lambda (src/docs/main.go).

  The Go program is embedded shallowly:
  * Go byte slices and strings that carry document content are `List Char`.
  * Go `error` values are the inductive `GoErr`; fallible Go calls are
    `Except GoErr _`.
  * The external collaborators (the AWS docstore client `ds`, the markdown
    renderer, and `text/template` parsing) are supplied through an `Env`
    record, so every theorem quantifies over their behaviour.
  * A parsed `text/template` object is modelled as its list of actions:
    literal text and the four field accesses of `docMetadata`, plus a
    `badField` action for a template that references a field the metadata
    struct does not carry (Go's `Execute` fails on such a template).
  * `time.Time` is modelled as a civil date-time plus zone abbreviation
    (`GoTime`); `Format(time.RFC850)` is reimplemented including the
    day-of-week computation.
-/

namespace Docstore

/-- Document content bytes (Go `[]byte` / `string`). -/
abbrev Bytes := List Char

/-- A Go `error` value, with the failure kinds relevant to this program.
`notFound` and `storageUnavailable` are the docstore fetch failures named by
the store contract; `readErr` is an `io` read failure; `parseErr` and
`execErr` are `text/template` parse and execute failures. -/
inductive GoErr where
  | notFound : GoErr
  | storageUnavailable : GoErr
  | readErr : String → GoErr
  | parseErr : String → GoErr
  | execErr : String → GoErr
deriving DecidableEq, Repr

/-- Civil date-time with a zone abbreviation, modelling the observable part
of a Go `time.Time` for `Format(time.RFC850)`. -/
structure GoTime where
  year : Nat
  month : Nat
  day : Nat
  hour : Nat
  minute : Nat
  second : Nat
  zone : String
deriving DecidableEq, Repr

/-- `rev.Metadata()` of the docstore: revision timestamp and version id. -/
structure RevMetadata where
  Timestamp : GoTime
  Id : Int
deriving DecidableEq, Repr

deriving instance DecidableEq for Except

/-- A fetched document revision: the result of reading its content stream
(`ioutil.ReadAll(rev)`, which can fail independently of the fetch), and its
revision metadata. -/
structure DocRev where
  readResult : Except GoErr Bytes
  metadata : RevMetadata
deriving DecidableEq

/-- The `docMetadata` struct of main.go. -/
structure docMetadata where
  Title : Bytes
  DocBody : Bytes
  Timestamp : Bytes
  Version : Int

/-- One action of a parsed `text/template`: literal text, one of the four
field accesses the handler's `docMetadata` supports, or an access to a field
the struct does not have (which makes `Execute` fail). -/
inductive Seg where
  | lit : Bytes → Seg
  | title : Seg
  | docBody : Seg
  | timestamp : Seg
  | version : Seg
  | badField : String → Seg
deriving DecidableEq, Repr

/-- A parsed template object (`*template.Template`). -/
abbrev Template := List Seg

/-- The external collaborators of the handler: the docstore (`ds.GetDoc`),
the markdown renderer (`markdown.ToHTML` with nil extensions), and
`text/template` parsing. -/
structure Env where
  store : String → Except GoErr DocRev
  render : Bytes → Bytes
  parseTemplate : Bytes → Except GoErr Template

/-- The fixed template document identifier `tmplDocName` of main.go. -/
def tmplDocName : String := "doc-template.html"

/-- `strings.Contains(docId, ".")`: the needle is the single character dot,
so this is occurrence of a dot character. -/
def containsDot (docId : String) : Bool :=
  docId.data.contains '.'

/-- The render mode of §3 of the design: derived, not stored. -/
inductive RenderMode where
  | Raw : RenderMode
  | MarkdownTemplated : RenderMode
deriving DecidableEq, Repr

/-- The classification decision of the handler (main.go line 92): a dot in
the identifier means raw passthrough. -/
def classify (docId : String) : RenderMode :=
  if containsDot docId then RenderMode.Raw else RenderMode.MarkdownTemplated

/-- `dropCR` of bufio's `ScanLines`: drop one terminal carriage return. -/
def dropCR (l : Bytes) : Bytes :=
  if l.getLast? = some '\r' then l.dropLast else l

/-- The bytes before the first line feed (`bytes.IndexByte(data, '\n')`
slice in `ScanLines`); the whole input when no line feed occurs. -/
def scanLine : Bytes → Bytes
  | [] => []
  | c :: rest => if c = '\n' then [] else c :: scanLine rest

/-- `firstLine` of main.go: the first token of a `bufio.Scanner` with the
default `ScanLines` split, i.e. the bytes before the first line feed with
one trailing carriage return dropped (empty input gives an empty token). -/
def firstLine (b : Bytes) : Bytes :=
  dropCR (scanLine b)

/-- Decimal rendering of a Go `int` as `text/template` prints it. -/
def intDecimal (i : Int) : Bytes :=
  (toString i).data

/-- Execute one template action against the metadata struct. -/
def renderSeg (m : docMetadata) : Seg → Except GoErr Bytes
  | Seg.lit s => Except.ok s
  | Seg.title => Except.ok m.Title
  | Seg.docBody => Except.ok m.DocBody
  | Seg.timestamp => Except.ok m.Timestamp
  | Seg.version => Except.ok (intDecimal m.Version)
  | Seg.badField n => Except.error (GoErr.execErr n)

/-- `tmpl.Execute(&b, meta)`: concatenate the rendered actions, failing when
the template references a field the metadata struct does not carry. -/
def execTemplate (t : Template) (m : docMetadata) : Except GoErr Bytes :=
  match t with
  | [] => Except.ok []
  | s :: rest =>
    match renderSeg m s with
    | Except.error e => Except.error e
    | Except.ok h =>
      match execTemplate rest m with
      | Except.error e => Except.error e
      | Except.ok tl => Except.ok (h ++ tl)

/-- Sakamoto's month offsets for the day-of-week computation. -/
def monthOffset : Nat → Nat
  | 1 => 0 | 2 => 3 | 3 => 2 | 4 => 5 | 5 => 0 | 6 => 3
  | 7 => 5 | 8 => 1 | 9 => 4 | 10 => 6 | 11 => 2 | _ => 4

/-- Day of week of a civil date, 0 = Sunday (Sakamoto's algorithm). -/
def dayOfWeek (y m d : Nat) : Nat :=
  let y' := if m < 3 then y - 1 else y
  (y' + y' / 4 - y' / 100 + y' / 400 + monthOffset m + d) % 7

/-- Full weekday name, 0 = Sunday. -/
def weekdayName : Nat → String
  | 0 => "Sunday" | 1 => "Monday" | 2 => "Tuesday" | 3 => "Wednesday"
  | 4 => "Thursday" | 5 => "Friday" | _ => "Saturday"

/-- Three-letter month name, January = 1. -/
def monthName : Nat → String
  | 1 => "Jan" | 2 => "Feb" | 3 => "Mar" | 4 => "Apr" | 5 => "May" | 6 => "Jun"
  | 7 => "Jul" | 8 => "Aug" | 9 => "Sep" | 10 => "Oct" | 11 => "Nov" | _ => "Dec"

/-- Zero-padded two-digit decimal. -/
def pad2 (n : Nat) : Bytes :=
  if n < 10 then '0' :: (toString n).data else (toString n).data

/-- `t.Format(time.RFC850)`: layout `Monday, 02-Jan-06 15:04:05 MST`. -/
def formatRFC850 (t : GoTime) : Bytes :=
  (weekdayName (dayOfWeek t.year t.month t.day)).data ++ ", ".data
    ++ pad2 t.day ++ "-".data ++ (monthName t.month).data ++ "-".data
    ++ pad2 (t.year % 100) ++ " ".data
    ++ pad2 t.hour ++ ":".data ++ pad2 t.minute ++ ":".data ++ pad2 t.second
    ++ " ".data ++ t.zone.data

/-- An APIGatewayProxyResponse as the handler populates it. -/
structure Response where
  statusCode : Nat
  isBase64Encoded : Bool
  body : Bytes
  headers : List (String × String)
deriving DecidableEq, Repr

/-- `getTemplate` of main.go: fetch the document `tmplDocName` from the
store, read its content, parse it; the first failure is returned. -/
def getTemplate (env : Env) : Except GoErr Template :=
  match env.store tmplDocName with
  | Except.error e => Except.error e
  | Except.ok tmplDoc =>
    match tmplDoc.readResult with
    | Except.error e => Except.error e
    | Except.ok tmplBytes => env.parseTemplate tmplBytes

/-- The metadata struct the handler builds (main.go lines 114-119). -/
def handlerMeta (env : Env) (doc : Bytes) (rev : DocRev) : docMetadata :=
  ⟨firstLine doc, env.render doc, formatRFC850 rev.metadata.Timestamp,
    rev.metadata.Id⟩

/-- `Handler` of main.go, returning the response and the Go error value. -/
def Handler (env : Env) (docId : String) : Response × Option GoErr :=
  match env.store docId with
  | Except.error _ => (⟨404, false, [], []⟩, none)
  | Except.ok rev =>
    match rev.readResult with
    | Except.error e => (⟨500, false, [], []⟩, some e)
    | Except.ok doc =>
      if containsDot docId then
        (⟨200, false, doc, [("Content-Type", "text/html")]⟩, none)
      else
        match getTemplate env with
        | Except.error e => (⟨500, false, [], []⟩, some e)
        | Except.ok tmpl =>
          match execTemplate tmpl (handlerMeta env doc rev) with
          | Except.error e => (⟨500, false, [], []⟩, some e)
          | Except.ok b => (⟨200, false, b, [("Content-Type", "text/html")]⟩, none)

/-- Whether a template action can be executed against `docMetadata` (all
actions except an access to a missing field). -/
def segOk : Seg → Bool
  | Seg.badField _ => false
  | _ => true

/-- Claim-side reading of the title rule of §4.5: the first line of the
content up to (not including) the first line-break, with nothing further
done to it. Compared against `firstLine`, which the code actually uses. -/
def titleUpToLineBreak (l : Bytes) : Bytes :=
  l.takeWhile (fun c => c != '\n')

/-- The revision timestamp of the templated scenario of §8. -/
def ts2021 : GoTime := ⟨2021, 5, 4, 10, 0, 0, "UTC"⟩

/-- Stored revision of document `intro` in the templated scenario of §8. -/
def revIntro : DocRev := ⟨Except.ok "# Welcome\nBody text".data, ⟨ts2021, 3⟩⟩

/-- Stored revision of document `notes.txt` in the raw scenario of §8. -/
def revRaw : DocRev := ⟨Except.ok "<b>hi</b>".data, ⟨ts2021, 1⟩⟩

/-- A revision whose content stream fails to read. -/
def revRF : DocRev := ⟨Except.error (GoErr.readErr "boom"), ⟨ts2021, 1⟩⟩

/-- The stored template document. -/
def revTmplDoc : DocRev := ⟨Except.ok "TMPL".data, ⟨ts2021, 1⟩⟩

/-- The parsed template of the templated scenario of §8: title, body,
version and timestamp placeholders with literal text around them. -/
def tmplSegs : Template :=
  [Seg.lit "<title>".data, Seg.title, Seg.lit "</title>".data, Seg.docBody,
    Seg.lit "v".data, Seg.version, Seg.lit " ".data, Seg.timestamp]

/-- Environment of the templated scenario: `intro` and the template
document are stored, everything else is absent. -/
def envT : Env :=
  ⟨fun n => if n = "intro" then Except.ok revIntro
    else if n = tmplDocName then Except.ok revTmplDoc
    else Except.error GoErr.notFound,
   fun _ => "<h1>Welcome</h1>\n".data,
   fun b => if b = "TMPL".data then Except.ok tmplSegs
     else Except.error (GoErr.parseErr "bad")⟩

/-- Environment whose store backend is unavailable for every identifier. -/
def envSU : Env :=
  ⟨fun _ => Except.error GoErr.storageUnavailable, fun b => b,
   fun _ => Except.error (GoErr.parseErr "x")⟩

/-- Environment where every fetch succeeds but reading the content fails. -/
def envRF : Env :=
  ⟨fun _ => Except.ok revRF, fun b => b,
   fun _ => Except.error (GoErr.parseErr "x")⟩

/-- Environment of the raw scenario: only `notes.txt` is stored. -/
def envRaw : Env :=
  ⟨fun n => if n = "notes.txt" then Except.ok revRaw
    else Except.error GoErr.notFound,
   fun b => b, fun _ => Except.error (GoErr.parseErr "x")⟩

/-- Environment where `intro` is stored but the template document is
absent. -/
def envNoTmpl : Env :=
  ⟨fun n => if n = "intro" then Except.ok revIntro
    else Except.error GoErr.notFound,
   fun b => b, fun _ => Except.error (GoErr.parseErr "x")⟩

/-- Branch equation: a fetch failure of any kind gives the 404 response. -/
theorem handler_fetch_error {env : Env} {docId : String} {e : GoErr}
    (h : env.store docId = Except.error e) :
    Handler env docId = (⟨404, false, [], []⟩, none) := by
  simp [Handler, h]

/-- Branch equation: a content read failure gives 500 with the error. -/
theorem handler_read_error {env : Env} {docId : String} {rev : DocRev}
    {e : GoErr} (h1 : env.store docId = Except.ok rev)
    (h2 : rev.readResult = Except.error e) :
    Handler env docId = (⟨500, false, [], []⟩, some e) := by
  simp [Handler, h1, h2]

/-- Branch equation: a dotted identifier returns the content verbatim. -/
theorem handler_raw {env : Env} {docId : String} {rev : DocRev} {doc : Bytes}
    (h1 : env.store docId = Except.ok rev)
    (h2 : rev.readResult = Except.ok doc)
    (h3 : containsDot docId = true) :
    Handler env docId
      = (⟨200, false, doc, [("Content-Type", "text/html")]⟩, none) := by
  simp [Handler, h1, h2, h3]

/-- Branch equation: a template failure on the templated path gives 500. -/
theorem handler_template_error {env : Env} {docId : String} {rev : DocRev}
    {doc : Bytes} {e : GoErr} (h1 : env.store docId = Except.ok rev)
    (h2 : rev.readResult = Except.ok doc)
    (h3 : containsDot docId = false)
    (h4 : getTemplate env = Except.error e) :
    Handler env docId = (⟨500, false, [], []⟩, some e) := by
  simp [Handler, h1, h2, h3, h4]

/-- Branch equation: a template execution failure gives 500. -/
theorem handler_exec_error {env : Env} {docId : String} {rev : DocRev}
    {doc : Bytes} {tmpl : Template} {e : GoErr}
    (h1 : env.store docId = Except.ok rev)
    (h2 : rev.readResult = Except.ok doc)
    (h3 : containsDot docId = false)
    (h4 : getTemplate env = Except.ok tmpl)
    (h5 : execTemplate tmpl (handlerMeta env doc rev) = Except.error e) :
    Handler env docId = (⟨500, false, [], []⟩, some e) := by
  simp [Handler, h1, h2, h3, h4, h5]

/-- Branch equation: the fully successful templated path returns the
composed page. -/
theorem handler_exec_ok {env : Env} {docId : String} {rev : DocRev}
    {doc : Bytes} {tmpl : Template} {b : Bytes}
    (h1 : env.store docId = Except.ok rev)
    (h2 : rev.readResult = Except.ok doc)
    (h3 : containsDot docId = false)
    (h4 : getTemplate env = Except.ok tmpl)
    (h5 : execTemplate tmpl (handlerMeta env doc rev) = Except.ok b) :
    Handler env docId
      = (⟨200, false, b, [("Content-Type", "text/html")]⟩, none) := by
  simp [Handler, h1, h2, h3, h4, h5]

/-- A template whose actions are all executable executes successfully. -/
theorem execTemplate_ok_of_all {t : Template} (m : docMetadata)
    (h : t.all segOk = true) : ∃ out, execTemplate t m = Except.ok out := by
  induction t with
  | nil => exact ⟨[], rfl⟩
  | cons s rest ih =>
    rw [List.all_cons, Bool.and_eq_true] at h
    obtain ⟨tl, htl⟩ := ih h.2
    cases s with
    | lit str => exact ⟨str ++ tl, by simp [execTemplate, renderSeg, htl]⟩
    | title => exact ⟨m.Title ++ tl, by simp [execTemplate, renderSeg, htl]⟩
    | docBody => exact ⟨m.DocBody ++ tl, by simp [execTemplate, renderSeg, htl]⟩
    | timestamp =>
      exact ⟨m.Timestamp ++ tl, by simp [execTemplate, renderSeg, htl]⟩
    | version =>
      exact ⟨intDecimal m.Version ++ tl, by simp [execTemplate, renderSeg, htl]⟩
    | badField n => simp [segOk] at h

/-- When execution succeeds, the rendering of every action of the template
occurs verbatim inside the output. -/
theorem execTemplate_contains {t : Template} {m : docMetadata}
    {out v : Bytes} {s : Seg} (hmem : s ∈ t)
    (hexec : execTemplate t m = Except.ok out)
    (hv : renderSeg m s = Except.ok v) :
    ∃ pre post, out = pre ++ v ++ post := by
  induction t generalizing out with
  | nil => cases hmem
  | cons a rest ih =>
    rcases ha : renderSeg m a with e | hh
    · simp [execTemplate, ha] at hexec
    · rcases ht : execTemplate rest m with e | tl
      · simp [execTemplate, ha, ht] at hexec
      · rw [execTemplate] at hexec
        rw [ha, ht] at hexec
        have hout : out = hh ++ tl := by
          cases hexec
          rfl
        rcases List.mem_cons.mp hmem with rfl | hmem'
        · have hhv : hh = v := by
            rw [ha] at hv
            cases hv
            rfl
          exact ⟨[], tl, by simp [hout, hhv]⟩
        · obtain ⟨pre, post, hpp⟩ := ih hmem' ht
          exact ⟨hh ++ pre, post, by simp [hout, hpp]⟩

/-- `scanLine` computes the longest prefix free of line feeds. -/
theorem scanLine_eq_takeWhile (l : Bytes) :
    scanLine l = l.takeWhile (fun c => c != '\n') := by
  induction l with
  | nil => rfl
  | cons c rest ih =>
    by_cases h : c = '\n'
    · subst h
      simp [scanLine, List.takeWhile_cons]
    · simp [scanLine, List.takeWhile_cons, h, ih]

/-- Exhaustive shape of a handler response: a bare 404 with nil error, a
bare 500 carrying an error, or a 200 page with the text/html header and nil
error. -/
theorem handler_shape (env : Env) (docId : String) :
    Handler env docId = (⟨404, false, [], []⟩, none) ∨
    (∃ e, Handler env docId = (⟨500, false, [], []⟩, some e)) ∨
    (∃ b, Handler env docId
      = (⟨200, false, b, [("Content-Type", "text/html")]⟩, none)) := by
  rcases hs : env.store docId with e | rev
  · exact Or.inl (handler_fetch_error hs)
  · rcases hr : rev.readResult with e | doc
    · exact Or.inr (Or.inl ⟨e, handler_read_error hs hr⟩)
    · cases hd : containsDot docId with
      | true => exact Or.inr (Or.inr ⟨doc, handler_raw hs hr hd⟩)
      | false =>
        rcases ht : getTemplate env with e | tmpl
        · exact Or.inr (Or.inl ⟨e, handler_template_error hs hr hd ht⟩)
        · rcases he : execTemplate tmpl (handlerMeta env doc rev) with e | b
          · exact Or.inr (Or.inl ⟨e, handler_exec_error hs hr hd ht he⟩)
          · exact Or.inr (Or.inr ⟨b, handler_exec_ok hs hr hd ht he⟩)

/-- Claim C1, counterexample: the handler does not map a
`StorageUnavailable` fetch failure to status 500. With a store whose
backend is unavailable for every identifier, the response is 404: the
handler treats every `GetDoc` failure alike. -/
theorem c1_counterexample :
    envSU.store "somedoc" = Except.error GoErr.storageUnavailable ∧
    (Handler envSU "somedoc").fst.statusCode = 404 ∧
    ¬ (Handler envSU "somedoc").fst.statusCode = 500 := by
  refine ⟨rfl, ?_, ?_⟩ <;> decide

/-- Claim C1, amended: every document fetch failure, `StorageUnavailable`
included, is answered with status 404 and a nil error — the handler does
not distinguish fetch failure kinds; only a failure reading the content
stream of a successfully fetched document is answered with status 500. -/
theorem c1_fetch_failure_all_404_read_failure_500 :
    (∀ (env : Env) (docId : String) (e : GoErr),
      env.store docId = Except.error e →
      Handler env docId = (⟨404, false, [], []⟩, none)) ∧
    (∀ (env : Env) (docId : String) (rev : DocRev) (e : GoErr),
      env.store docId = Except.ok rev →
      rev.readResult = Except.error e →
      Handler env docId = (⟨500, false, [], []⟩, some e)) :=
  ⟨fun _ _ _ h => handler_fetch_error h,
   fun _ _ _ _ h1 h2 => handler_read_error h1 h2⟩

/-- Claim C1, witness: the amended theorem applied to a store whose backend
is unavailable, and to a store whose content stream fails to read. -/
theorem c1_witness :
    Handler envSU "somedoc" = (⟨404, false, [], []⟩, none) ∧
    Handler envRF "doc" = (⟨500, false, [], []⟩, some (GoErr.readErr "boom")) :=
  ⟨c1_fetch_failure_all_404_read_failure_500.1 envSU "somedoc"
      GoErr.storageUnavailable rfl,
   c1_fetch_failure_all_404_read_failure_500.2 envRF "doc" revRF
      (GoErr.readErr "boom") rfl rfl⟩

/-- Claim C2: an identifier containing a dot classifies as `Raw`, an
identifier without a dot classifies as `MarkdownTemplated`; the decision is
a function of the identifier alone. -/
theorem c2_classification_lexical :
    ∀ docId : String,
      (classify docId = RenderMode.Raw ↔ '.' ∈ docId.data) ∧
      (classify docId = RenderMode.MarkdownTemplated ↔ '.' ∉ docId.data) := by
  intro docId
  by_cases h : '.' ∈ docId.data
  · simp [classify, containsDot, h]
  · simp [classify, containsDot, h]

/-- Claim C2, witness: the classification at the two §8 scenarios. -/
theorem c2_witness :
    classify "notes.txt" = RenderMode.Raw ∧
    classify "intro" = RenderMode.MarkdownTemplated :=
  ⟨(c2_classification_lexical "notes.txt").1.mpr (by decide),
   (c2_classification_lexical "intro").2.mpr (by decide)⟩

/-- Claim C3: on a dotted identifier whose fetch and read succeed, the
response is status 200, `Content-Type: text/html`, body exactly the stored
content; moreover the response depends only on the store's answer for that
identifier — the renderer, the template parser and every other store entry
are irrelevant, so no conversion, template fetch or composition happens. -/
theorem c3_raw_passthrough :
    (∀ (env : Env) (docId : String) (rev : DocRev) (content : Bytes),
      containsDot docId = true →
      env.store docId = Except.ok rev →
      rev.readResult = Except.ok content →
      Handler env docId
        = (⟨200, false, content, [("Content-Type", "text/html")]⟩, none)) ∧
    (∀ (env env' : Env) (docId : String),
      containsDot docId = true →
      env.store docId = env'.store docId →
      Handler env docId = Handler env' docId) := by
  constructor
  · intro env docId rev content h3 h1 h2
    exact handler_raw h1 h2 h3
  · intro env env' docId hdot hs
    rcases h : env'.store docId with e | rev
    · rw [handler_fetch_error (hs.trans h), handler_fetch_error h]
    · rcases hr : rev.readResult with e | doc
      · rw [handler_read_error (hs.trans h) hr, handler_read_error h hr]
      · rw [handler_raw (hs.trans h) hr hdot, handler_raw h hr hdot]

/-- Claim C3, witness: the raw scenario of §8, identifier `notes.txt` with
stored content `<b>hi</b>`. -/
theorem c3_witness :
    Handler envRaw "notes.txt"
      = (⟨200, false, "<b>hi</b>".data, [("Content-Type", "text/html")]⟩,
          none) :=
  c3_raw_passthrough.1 envRaw "notes.txt" revRaw "<b>hi</b>".data
    (by decide) rfl rfl

/-- Claim C4: a `NotFound` fetch failure is answered with status 404, empty
body, no headers and a nil error; the response is the same for every
environment, so no later pipeline stage contributes to it. -/
theorem c4_not_found_404 :
    ∀ (env : Env) (docId : String),
      env.store docId = Except.error GoErr.notFound →
      Handler env docId = (⟨404, false, [], []⟩, none) :=
  fun _ _ h => handler_fetch_error h

/-- Claim C4, witness: the missing-document scenario of §8. -/
theorem c4_witness :
    Handler envNoTmpl "no-such-doc" = (⟨404, false, [], []⟩, none) :=
  c4_not_found_404 envNoTmpl "no-such-doc" (by decide)

/-- Claim C5, counterexample: the extracted title is not always the first
line up to the first line-break. The content `Hello\r` has no line-break of
any kind, so its first line is the whole content `Hello\r`, but the code
strips the trailing carriage return and yields `Hello`. -/
theorem c5_counterexample :
    firstLine "Hello\r".data ≠ titleUpToLineBreak "Hello\r".data ∧
    titleUpToLineBreak "Hello\r".data = "Hello\r".data ∧
    firstLine "Hello\r".data = "Hello".data := by
  refine ⟨?_, ?_, ?_⟩ <;> decide

/-- Claim C5, amended: the extracted title is the first line of the content
up to (not including) the first line feed, with one trailing carriage
return then stripped; in particular the three stated examples hold:
`Hello\nWorld` gives `Hello`, `Hello World` gives `Hello World`, and empty
content gives the empty title. -/
theorem c5_title_first_line :
    (∀ l : Bytes, firstLine l = dropCR (titleUpToLineBreak l)) ∧
    firstLine "Hello\nWorld".data = "Hello".data ∧
    firstLine "Hello World".data = "Hello World".data ∧
    firstLine ([] : Bytes) = ([] : Bytes) := by
  refine ⟨?_, by decide, by decide, rfl⟩
  intro l
  unfold firstLine titleUpToLineBreak
  rw [scanLine_eq_takeWhile]

/-- Claim C5, witness: the amended equation evaluated on concrete content
with a Windows line ending. -/
theorem c5_witness :
    firstLine "abc\r\ndef".data
      = dropCR (titleUpToLineBreak "abc\r\ndef".data) :=
  c5_title_first_line.1 ("abc\r\ndef".data)

/-- Claim C6: on every fully successful templated request whose template
carries the timestamp placeholder, the page body contains the revision
timestamp formatted with the RFC850 layout
`Monday, 02-Jan-06 15:04:05 MST`; and that formatting maps
2021-05-04T10:00:00 UTC exactly to `Tuesday, 04-May-21 10:00:00 UTC`. -/
theorem c6_timestamp_rfc850 :
    (∀ (env : Env) (docId : String) (rev : DocRev) (content : Bytes)
        (tmpl : Template),
      env.store docId = Except.ok rev →
      rev.readResult = Except.ok content →
      containsDot docId = false →
      getTemplate env = Except.ok tmpl →
      Seg.timestamp ∈ tmpl →
      tmpl.all segOk = true →
      (Handler env docId).fst.statusCode = 200 ∧
      ∃ pre post, (Handler env docId).fst.body
        = pre ++ formatRFC850 rev.metadata.Timestamp ++ post) ∧
    formatRFC850 ⟨2021, 5, 4, 10, 0, 0, "UTC"⟩
      = "Tuesday, 04-May-21 10:00:00 UTC".data := by
  constructor
  · intro env docId rev content tmpl h1 h2 h3 h4 hts hall
    obtain ⟨out, hout⟩ :=
      execTemplate_ok_of_all (handlerMeta env content rev) hall
    rw [handler_exec_ok h1 h2 h3 h4 hout]
    refine ⟨rfl, ?_⟩
    have hc := execTemplate_contains hts hout rfl
    simpa [handlerMeta] using hc
  · decide

/-- Claim C6, witness: the templated scenario of §8 with revision timestamp
2021-05-04T10:00:00 UTC. -/
theorem c6_witness :
    (Handler envT "intro").fst.statusCode = 200 ∧
    ∃ pre post, (Handler envT "intro").fst.body
      = pre ++ formatRFC850 revIntro.metadata.Timestamp ++ post :=
  c6_timestamp_rfc850.1 envT "intro" revIntro "# Welcome\nBody text".data
    tmplSegs rfl rfl (by decide) rfl (by decide) (by decide)

/-- Claim C7: composing a template that carries the title, body, timestamp
and version placeholders reproduces the supplied title, body, timestamp and
decimal version verbatim inside the output. -/
theorem c7_compose_round_trip :
    ∀ (t : Template) (m : docMetadata) (out : Bytes),
      Seg.title ∈ t → Seg.docBody ∈ t → Seg.timestamp ∈ t →
      Seg.version ∈ t →
      execTemplate t m = Except.ok out →
      (∃ pre post, out = pre ++ m.Title ++ post) ∧
      (∃ pre post, out = pre ++ m.DocBody ++ post) ∧
      (∃ pre post, out = pre ++ m.Timestamp ++ post) ∧
      (∃ pre post, out = pre ++ intDecimal m.Version ++ post) := by
  intro t m out hT hB hS hV hexec
  exact ⟨execTemplate_contains hT hexec rfl,
    execTemplate_contains hB hexec rfl,
    execTemplate_contains hS hexec rfl,
    execTemplate_contains hV hexec rfl⟩

/-- Claim C7, witness: a four-placeholder template composed with title `T`,
body `B`, timestamp `S` and version 7. -/
theorem c7_witness :
    (∃ pre post, "TBS7".data = pre ++ "T".data ++ post) ∧
    (∃ pre post, "TBS7".data = pre ++ "B".data ++ post) ∧
    (∃ pre post, "TBS7".data = pre ++ "S".data ++ post) ∧
    (∃ pre post, "TBS7".data = pre ++ intDecimal 7 ++ post) :=
  c7_compose_round_trip
    [Seg.title, Seg.docBody, Seg.timestamp, Seg.version]
    ⟨"T".data, "B".data, "S".data, 7⟩ "TBS7".data
    (by decide) (by decide) (by decide) (by decide) (by decide)

/-- Claim C8: the template is fetched under the fixed identifier
`doc-template.html`; `getTemplate` depends only on the store's current
answer for that identifier and on the parser, so nothing is cached across
requests; and any template fetch, read or parse failure on the templated
path is answered with status 500 carrying the error. -/
theorem c8_template_fixed_id_failure_500 :
    tmplDocName = "doc-template.html" ∧
    (∀ env env' : Env,
      env.store tmplDocName = env'.store tmplDocName →
      env.parseTemplate = env'.parseTemplate →
      getTemplate env = getTemplate env') ∧
    (∀ (env : Env) (docId : String) (rev : DocRev) (content : Bytes)
        (e : GoErr),
      env.store docId = Except.ok rev →
      rev.readResult = Except.ok content →
      containsDot docId = false →
      getTemplate env = Except.error e →
      Handler env docId = (⟨500, false, [], []⟩, some e)) := by
  refine ⟨rfl, ?_, ?_⟩
  · intro env env' hs hp
    unfold getTemplate
    rw [hs, hp]
  · intro env docId rev content e h1 h2 h3 h4
    exact handler_template_error h1 h2 h3 h4

/-- Claim C8, witness: a templated request in an environment whose template
document is absent is answered 500 with the underlying error. -/
theorem c8_witness :
    Handler envNoTmpl "intro" = (⟨500, false, [], []⟩, some GoErr.notFound) :=
  c8_template_fixed_id_failure_500.2.2 envNoTmpl "intro" revIntro
    "# Welcome\nBody text".data GoErr.notFound rfl rfl (by decide) rfl

/-- Claim C9: the returned Go error value is nil exactly on the 200 and 404
responses; each 500 branch — content read failure, template failure,
composition failure — returns the underlying error alongside the 500. -/
theorem c9_error_nil_iff_not_500 :
    ∀ (env : Env) (docId : String),
      ((Handler env docId).fst.statusCode = 200 ∨
        (Handler env docId).fst.statusCode = 404 ∨
        (Handler env docId).fst.statusCode = 500) ∧
      ((Handler env docId).snd = none ↔
        ((Handler env docId).fst.statusCode = 200 ∨
          (Handler env docId).fst.statusCode = 404)) ∧
      (∀ (rev : DocRev) (e : GoErr),
        env.store docId = Except.ok rev →
        rev.readResult = Except.error e →
        (Handler env docId).snd = some e) ∧
      (∀ (rev : DocRev) (content : Bytes) (e : GoErr),
        env.store docId = Except.ok rev →
        rev.readResult = Except.ok content →
        containsDot docId = false →
        getTemplate env = Except.error e →
        (Handler env docId).snd = some e) ∧
      (∀ (rev : DocRev) (content : Bytes) (tmpl : Template) (e : GoErr),
        env.store docId = Except.ok rev →
        rev.readResult = Except.ok content →
        containsDot docId = false →
        getTemplate env = Except.ok tmpl →
        execTemplate tmpl (handlerMeta env content rev) = Except.error e →
        (Handler env docId).snd = some e) := by
  intro env docId
  refine ⟨?_, ?_,
    fun rev e h1 h2 => by rw [handler_read_error h1 h2],
    fun rev content e h1 h2 h3 h4 => by
      rw [handler_template_error h1 h2 h3 h4],
    fun rev content tmpl e h1 h2 h3 h4 h5 => by
      rw [handler_exec_error h1 h2 h3 h4 h5]⟩
  · rcases handler_shape env docId with h | ⟨e, h⟩ | ⟨b, h⟩ <;> simp [h]
  · rcases handler_shape env docId with h | ⟨e, h⟩ | ⟨b, h⟩ <;> simp [h]

/-- Claim C9, witness: a read failure carries its error alongside the 500,
and a raw 200 response carries a nil error. -/
theorem c9_witness :
    (Handler envRF "doc").snd = some (GoErr.readErr "boom") ∧
    (Handler envRaw "notes.txt").snd = none :=
  ⟨(c9_error_nil_iff_not_500 envRF "doc").2.2.1 revRF
      (GoErr.readErr "boom") rfl rfl,
   (c9_error_nil_iff_not_500 envRaw "notes.txt").2.1.mpr (by decide)⟩

/-- Claim C10: title extraction normalizes Windows line endings: when the
first line is terminated by a carriage-return/line-feed pair, the carriage
return is stripped from the extracted title. -/
theorem c10_crlf_title :
    (∀ a rest : Bytes, '\n' ∉ a →
      firstLine (a ++ '\r' :: '\n' :: rest) = a) ∧
    firstLine "Hello\r\nWorld".data = "Hello".data := by
  constructor
  · intro a rest ha
    unfold firstLine
    have h1 : scanLine (a ++ '\r' :: '\n' :: rest) = a ++ ['\r'] := by
      induction a with
      | nil => simp [scanLine]
      | cons c cs ih =>
        have hc : c ≠ '\n' := fun h => ha (h ▸ List.mem_cons_self c cs)
        have ha' : '\n' ∉ cs := fun h => ha (List.mem_cons_of_mem c h)
        simp [scanLine, hc, ih ha']
    rw [h1]
    unfold dropCR
    simp
  · decide

/-- Claim C10, witness: the CRLF normalization at `Hello` and `World`. -/
theorem c10_witness :
    firstLine ("Hello".data ++ '\r' :: '\n' :: "World".data)
      = "Hello".data :=
  c10_crlf_title.1 "Hello".data "World".data (by decide)

end Docstore
